import Mathlib

/-!
Verification of the content acquisition and extraction engine of the
`newstui` repository against its natural-language specification.

The Python sources under `src/news_tui/` are shallowly embedded:

* `cache.py` (`Cache.get` / `Cache.set`) is modelled over an explicit
  filesystem state `CacheFS`; Python exceptions that the code does not
  catch are modelled with `Except PyErr`.
* `sources/cbc.py` (`CBCSource._retryable_fetch`, `get_sections`,
  `get_stories`, `get_story_content`, `_unique_ordered_stories`,
  `_is_placeholder_text`, `_parse_json_node_to_markdown`, `_abs_url`)
  is embedded over oracle inputs standing for what the external
  libraries (`requests`, BeautifulSoup, `feedparser`) return: the
  transport is a function from the attempt number to an optional body,
  a parsed HTML document is the record of anchors / paragraphs /
  embedded JSON the code would read off it, and `urllib.parse.urljoin`
  applied to `DOMAIN_BASE` is an abstract function argument `uj`.
* `sources/rss.py` (`RSSSource.get_stories`, `get_story_content`) is
  embedded over feed-entry records mirroring the `feedparser` fields
  the code reads; a missing dictionary key accessed with `entry[...]`
  or attribute access is a raised `KeyError`/`AttributeError`.

Python string primitives used by the code (`str.split()`, `str.strip()`,
`in`, `str.replace`, the compiled placeholder regex) are given explicit
executable definitions (`pyWords`, `pyStrip`, `strContains`,
`placeholderSearch`).
-/

/-- Python exceptions that can escape the embedded fragments. -/
inductive PyErr where
  | keyError
  | attributeError
  | typeError
  deriving DecidableEq, Inhabited

/-- Whitespace characters recognised by Python's `str.split()` /
`str.strip()` (ASCII subset). -/
def pyIsSpace (c : Char) : Bool :=
  c = ' ' || c = '\t' || c = '\n' || c = '\x0d' || c = '\x0b' || c = '\x0c'

/-- Python `str.strip()`: remove leading and trailing whitespace. -/
def pyStrip (s : String) : String :=
  String.mk (((s.data.dropWhile pyIsSpace).reverse.dropWhile pyIsSpace).reverse)

/-- Split a character list at every separator character, keeping empty
fields (the behaviour of Python's `str.split(sep)`); `acc` holds the
current field reversed. -/
def splitAuxCh (p : Char → Bool) : List Char → List Char → List String
  | acc, [] => [String.mk acc.reverse]
  | acc, c :: cs =>
    if p c then String.mk acc.reverse :: splitAuxCh p [] cs
    else splitAuxCh p (c :: acc) cs

/-- Split a string at every character satisfying `p`, keeping empty
fields. -/
def pySplitCh (p : Char → Bool) (s : String) : List String :=
  splitAuxCh p [] s.data

/-- Python `sep.join(parts)`. -/
def pyJoinSep (sep : String) : List String → String
  | [] => ""
  | [x] => x
  | x :: xs => x ++ sep ++ pyJoinSep sep xs

/-- Python `str.split()` with no argument: split on whitespace runs,
dropping empty fields. -/
def pyWords (s : String) : List String :=
  (pySplitCh pyIsSpace s).filter (fun w => w ≠ "")

/-- `len(s.split())` — the word count the extractor gates on. -/
def wordCount (s : String) : Nat := (pyWords s).length

/-- Python `sub in s` substring test. -/
def strContains (s sub : String) : Bool :=
  (List.range (s.length + 1)).any fun i => List.isPrefixOf sub.data (s.data.drop i)

/-- A JSON value, as produced by `json.loads` (`cache.py`,
`__NEXT_DATA__` payloads in `cbc.py`). Numbers are modelled as
rationals, object keys keep insertion order as Python dicts do. -/
inductive Json where
  | null
  | bool (b : Bool)
  | num (q : ℚ)
  | str (s : String)
  | arr (elems : List Json)
  | obj (kvs : List (String × Json))

/-- Python `dict` lookup on a JSON object's key/value list (keys are
unique in a parsed JSON object; first match wins). -/
def jLookup : List (String × Json) → String → Option Json
  | [], _ => none
  | (k, v) :: rest, key => if k = key then some v else jLookup rest key

/-- Python truthiness of a JSON value (`if more := ...` in `cbc.py`). -/
def pyTruthy : Json → Bool
  | Json.null => false
  | Json.bool b => b
  | Json.num q => decide (q ≠ 0)
  | Json.str s => decide (s ≠ "")
  | Json.arr l => !l.isEmpty
  | Json.obj kvs => !kvs.isEmpty

/-! ## Cache (`cache.py`)

`Cache._get_cache_path` hashes the key with SHA-256 and appends
`.json`; the digest is modelled by the key itself (the hash is
injective by the spec's own collision assumption, §4.5), so the
filesystem state is a map from keys to file contents. -/

/-- Contents of one cache file as the code observes them: the open/read
raises `IOError`, `json.load` raises `JSONDecodeError`, or a JSON value
is decoded. -/
inductive FileRaw where
  | ioError
  | badJson
  | jsonFile (j : Json)

/-- The cache directory: each key's file, if present. -/
def CacheFS : Type := String → Option FileRaw

/-- `Cache._get_cache_path`, with the SHA-256 digest modelled by the
key itself. -/
def Cache.path (key : String) : String := key

/-- Python `True`/`False` used as numbers (`bool` is an `int`), and the
timestamp read from a cache file: `time.time() - ts` needs a number. -/
def tsToNum : Json → Option ℚ
  | Json.num q => some q
  | Json.bool b => some (if b then 1 else 0)
  | _ => none

/-- `Cache.get` (cache.py lines 22-39). Missing file means `None`;
`IOError` and `JSONDecodeError` are caught and mean `None`; an entry
older than `ttl` means `None` (the file is not deleted). A file whose
JSON is not an object makes `data.get` raise `AttributeError`, and a
non-numeric `timestamp` makes the subtraction raise `TypeError`; the
code catches neither. A hit returns `data.get("value")`, i.e.
`Json.null` when the key is absent. -/
def Cache.get (fs : CacheFS) (ttl now : ℚ) (key : String) : Except PyErr Json :=
  match fs (Cache.path key) with
  | none => Except.ok Json.null
  | some FileRaw.ioError => Except.ok Json.null
  | some FileRaw.badJson => Except.ok Json.null
  | some (FileRaw.jsonFile d) =>
    match d with
    | Json.obj kvs =>
      match tsToNum ((jLookup kvs "timestamp").getD (Json.num 0)) with
      | some t =>
        if now - t > ttl then Except.ok Json.null
        else Except.ok ((jLookup kvs "value").getD Json.null)
      | none => Except.error PyErr.typeError
    | _ => Except.error PyErr.attributeError

/-- The JSON object `{"timestamp": t, "value": v}` that `Cache.set`
serialises. -/
def Cache.entryJson (t : ℚ) (v : Json) : Json :=
  Json.obj [("timestamp", Json.num t), ("value", v)]

/-- `Cache.set` (cache.py lines 41-52). `writeOk = false` stands for
the `open`/`json.dump` raising `IOError`, which the code catches and
logs, leaving the store untouched. -/
def Cache.set (fs : CacheFS) (key : String) (v : Json) (t : ℚ) (writeOk : Bool) :
    CacheFS :=
  if writeOk then
    fun k => if k = Cache.path key then some (FileRaw.jsonFile (Cache.entryJson t v)) else fs k
  else fs

/-- Claim C8: cache round-trip law. After `set(key, v)` at time `t`, a
`get(key)` at a time `now` with `now - t ≤ ttl` returns exactly `v`;
once `now - t` exceeds `ttl` the `get` returns absent (`None`) while
the stored file is still present (expired entries are not deleted), and
a subsequent `set(key, v')` overwrites the entry. -/
theorem c8_cache_roundtrip (fs : CacheFS) (ttl : ℚ) (key : String) (v : Json)
    (t now : ℚ) (v' : Json) (t' : ℚ) :
    (now - t ≤ ttl →
      Cache.get (Cache.set fs key v t true) ttl now key = Except.ok v) ∧
    (ttl < now - t →
      Cache.get (Cache.set fs key v t true) ttl now key = Except.ok Json.null ∧
      Cache.set fs key v t true (Cache.path key) =
        some (FileRaw.jsonFile (Cache.entryJson t v))) ∧
    Cache.set (Cache.set fs key v t true) key v' t' true (Cache.path key) =
      some (FileRaw.jsonFile (Cache.entryJson t' v')) := by
  refine ⟨fun h => ?_, fun h => ⟨?_, ?_⟩, ?_⟩
  · simp [Cache.get, Cache.set, Cache.entryJson, jLookup, tsToNum]
    intro hc
    exact absurd h (by simpa using not_le.mpr hc)
  · simp only [Cache.get, Cache.set, Cache.entryJson, if_pos rfl]
    simp [jLookup, tsToNum, show now - t > ttl from h]
  · simp [Cache.set]
  · simp [Cache.set]

/-- Witness for C8 at concrete inputs: store `"v"` at time 0 with
`ttl = 5`; a read at time 3 returns it, a read at time 9 is absent. -/
theorem c8_cache_roundtrip_witness :
    Cache.get (Cache.set (fun _ => none) "k" (Json.str "v") 0 true) 5 3 "k" =
      Except.ok (Json.str "v") ∧
    Cache.get (Cache.set (fun _ => none) "k" (Json.str "v") 0 true) 5 9 "k" =
      Except.ok Json.null :=
  ⟨(c8_cache_roundtrip (fun _ => none) 5 "k" (Json.str "v") 0 3 (Json.str "v") 0).1
      (by norm_num),
    ((c8_cache_roundtrip (fun _ => none) 5 "k" (Json.str "v") 0 9 (Json.str "v") 0).2.1
      (by norm_num)).1⟩

/-- A cache directory holding, for key `"k"`, a file whose contents are
the valid JSON text `[]` — decodable JSON that is not an object. -/
def fsBadShape : CacheFS :=
  fun k => if k = "k" then some (FileRaw.jsonFile (Json.arr [])) else none

/-- Claim C9 (code bug): on a cache file that decodes to JSON of the
wrong shape (here a list), `Cache.get` does not return absent — the
code's `data.get("timestamp", 0)` raises `AttributeError`, which is not
in the `except (IOError, json.JSONDecodeError)` handler and escapes to
the caller, contradicting the spec's rule that the cache never raises. -/
theorem c9_cache_wrong_shape_raises :
    Cache.get fsBadShape 60 100 "k" = Except.error PyErr.attributeError := rfl

/-! ## Retryable fetch (`cbc.py` lines 50-68) and configuration
constants (`config.py`). -/

def RETRY_ATTEMPTS : Nat := 4

def INITIAL_RETRY_DELAY : ℚ := 1/2

def MIN_ARTICLE_WORDS : Nat := 15

def HOME_PAGE_URL : String := "https://www.cbc.ca/lite"

def SECTIONS_PAGE_URL : String := "https://www.cbc.ca/lite/sections"

/-- The transport: what `self.session.get(url, ...)` followed by
`raise_for_status` yields on the n-th attempt — `some body` on a 2xx
response, `none` when a `requests.RequestException` is raised (any
network-layer error or non-2xx status). -/
def Transport : Type := Nat → Option String

/-- The loop body of `CBCSource._retryable_fetch`, indexed by the
remaining number of attempts (`remaining = attempts - attempt + 1`).
The result records the returned value, the list of delays slept (in
seconds, in sleep order) and the number of attempts made. On a failed
attempt that is not the last, the code sleeps `delay` and doubles it. -/
def retryable_fetch_go (transport : Transport) : Nat → ℚ → Nat →
    Option String × List ℚ × Nat
  | _, _, 0 => (none, [], 0)
  | attempt, delay, r + 1 =>
    match transport attempt with
    | some b => (some b, [], 1)
    | none =>
      if r = 0 then (none, [], 1)
      else
        let rec' := retryable_fetch_go transport (attempt + 1) (2 * delay) r
        (rec'.1, delay :: rec'.2.1, rec'.2.2 + 1)

/-- `CBCSource._retryable_fetch(url, attempts)`: attempts start at 1,
the delay starts at `INITIAL_RETRY_DELAY` (0.5 s). -/
def retryable_fetch (transport : Transport) (attempts : Nat) :
    Option String × List ℚ × Nat :=
  retryable_fetch_go transport 1 INITIAL_RETRY_DELAY attempts

/-- Helper for C3: on an always-failing transport the loop makes
exactly `remaining` attempts, sleeps the doubling delays, and returns
`none`. -/
theorem retryable_fetch_go_all_fail (transport : Transport)
    (hfail : ∀ i, transport i = none) :
    ∀ (r attempt : Nat) (delay : ℚ),
      retryable_fetch_go transport attempt delay r =
        (none, (List.range (r - 1)).map (fun i => delay * 2 ^ i), r) := by
  intro r
  induction r with
  | zero => intro attempt delay; simp [retryable_fetch_go]
  | succ n ih =>
    intro attempt delay
    rw [retryable_fetch_go]
    rw [hfail attempt]
    by_cases h0 : n = 0
    · subst h0; simp
    · simp only [if_neg h0, ih (attempt + 1) (2 * delay)]
      obtain ⟨m, rfl⟩ := Nat.exists_eq_succ_of_ne_zero h0
      simp only [Nat.succ_sub_one, List.range_succ_eq_map, List.map_cons, List.map_map,
        Prod.mk.injEq, List.cons.injEq, true_and, and_true]
      refine ⟨by norm_num, ?_⟩
      apply List.map_congr_left
      intro i _
      simp only [Function.comp, pow_succ]
      ring

/-- Claim C3: when every transport attempt fails, `_retryable_fetch`
makes exactly `attempts` sequential attempts, sleeping before each
retry a delay that starts at 0.5 s and doubles after each wait (so the
slept delays are 0.5·2^0, 0.5·2^1, ... — one wait per retry), and then
returns the failure value `None` instead of letting an exception cross
the fetch boundary (only `requests.RequestException` is ever raised by
the transport, and the loop catches exactly that). -/
theorem c3_retry_backoff (transport : Transport) (attempts : Nat)
    (hfail : ∀ i, transport i = none) :
    retryable_fetch transport attempts =
      (none,
        (List.range (attempts - 1)).map (fun i => INITIAL_RETRY_DELAY * 2 ^ i),
        attempts) :=
  retryable_fetch_go_all_fail transport hfail attempts 1 INITIAL_RETRY_DELAY

/-- Witness for C3: with the default `RETRY_ATTEMPTS = 4` and an
always-failing transport, exactly 4 attempts are made and the slept
delays are 0.5 s, 1 s, 2 s. -/
theorem c3_retry_backoff_witness :
    retryable_fetch (fun _ => none) RETRY_ATTEMPTS =
      (none, [1/2, 1, 2], 4) := by
  rw [c3_retry_backoff (fun _ => none) RETRY_ATTEMPTS (fun _ => rfl)]
  norm_num [RETRY_ATTEMPTS, INITIAL_RETRY_DELAY, List.range_succ]

/-! ## Claim C1: the fetch path never consults the cache.

`Fetcher.__init__` (fetcher.py lines 15-20) constructs
`Cache(cache_dir=CACHE_DIR, ttl=CACHE_TTL)` and passes it as
`CBCSource(config=..., cache=self.cache)` — but `CBCSource.__init__`
accepts no `cache` parameter (cbc.py line 35), and `config.py` defines
neither `CACHE_DIR` nor `CACHE_TTL`. Every acquisition goes through
`CBCSource._retryable_fetch`, whose body (cbc.py lines 50-68) contains
no cache read or write. `cbcAcquire` embeds that composition: the cache
state is passed through untouched and the network is always hit. -/

def cbcAcquire (fs : CacheFS) (transport : Transport) :
    (Option String × List ℚ × Nat) × CacheFS :=
  (retryable_fetch transport RETRY_ATTEMPTS, fs)

/-- Claim C1 (code bug): even when the cache holds an unexpired entry
for the requested URL, the acquisition path performs a network request
(here: a transport that succeeds immediately is consulted exactly once,
not zero times), and the fetched value is never stored — the resulting
cache state is the input state unchanged. Both halves of the claim
(cache-hit short-circuit, cache-miss store) fail on the code. -/
theorem c1_cache_not_consulted (fs : CacheFS) (ttl now : ℚ) (url : String)
    (v : Json) (b : String)
    (_hhit : Cache.get fs ttl now url = Except.ok v) (_hfresh : v ≠ Json.null) :
    (cbcAcquire fs (fun _ => some b)).1.2.2 = 1 ∧
    (cbcAcquire fs (fun _ => some b)).2 = fs := by
  exact ⟨rfl, rfl⟩

/-- Witness for C1: a cache holding a fresh entry for `"u"` (stored at
time 0, read at time 1, ttl 60) still leads to one network request and
an unchanged cache. -/
theorem c1_cache_not_consulted_witness :
    (cbcAcquire (Cache.set (fun _ => none) "u" (Json.str "cached") 0 true)
        (fun _ => some "body")).1.2.2 = 1 ∧
    (cbcAcquire (Cache.set (fun _ => none) "u" (Json.str "cached") 0 true)
        (fun _ => some "body")).2 =
      Cache.set (fun _ => none) "u" (Json.str "cached") 0 true :=
  c1_cache_not_consulted
    (Cache.set (fun _ => none) "u" (Json.str "cached") 0 true) 60 1 "u"
    (Json.str "cached") "body"
    ((c8_cache_roundtrip (fun _ => none) 60 "u" (Json.str "cached") 0 1
        (Json.str "cached") 0).1 (by norm_num))
    (by intro h; cases h)

/-! ## Data model (`datamodels.py`) and result dictionaries. -/

/-- A value in one of the `{"ok": ..., "content": ...}` result
dictionaries returned by `get_story_content`. -/
inductive PyVal where
  | vB (b : Bool)
  | vS (s : String)
  deriving DecidableEq

/-- A Python dict with string keys, as returned by
`get_story_content` (insertion-ordered key/value pairs). -/
def PyDict : Type := List (String × PyVal)

/-- Dict lookup on a result dictionary. -/
def pyDLookup : PyDict → String → Option PyVal
  | [], _ => none
  | (k, v) :: rest, key => if k = key then some v else pyDLookup rest key

/-- `{"ok": True, "content": c}` (cbc.py lines 154, 164; rss.py 54, 57). -/
def okDict (c : String) : PyDict :=
  [("ok", PyVal.vB true), ("content", PyVal.vS c)]

/-- `{"ok": False, "content": "Failed to fetch article."}` (cbc.py line 131). -/
def fetchFailDict : PyDict :=
  [("ok", PyVal.vB false), ("content", PyVal.vS "Failed to fetch article.")]

/-- `{"ok": False, "content": "Could not extract valid article content."}`
(cbc.py line 167). -/
def extractFailDict : PyDict :=
  [("ok", PyVal.vB false), ("content", PyVal.vS "Could not extract valid article content.")]

/-- `{"ok": False, "content": "No content found."}` (rss.py line 58). -/
def noContentDict : PyDict :=
  [("ok", PyVal.vB false), ("content", PyVal.vS "No content found.")]

/-- `dataclass Story` (datamodels.py). -/
structure Story where
  title : String
  url : String
  flag : Option String
  summary : Option String
  read : Bool
  bookmarked : Bool
  deriving DecidableEq

/-- `dataclass Section` (datamodels.py). -/
structure Section where
  title : String
  url : String
  deriving DecidableEq

/-- `urllib.parse.urljoin(DOMAIN_BASE, href)` as an abstract resolver:
the claims do not depend on its value, only on where the code applies
it. -/
def UJ : Type := String → String

/-- `_abs_url` (cbc.py lines 170-175): empty (falsy) href maps to `""`,
absolute URLs pass through, anything else is resolved against
`DOMAIN_BASE` by `urljoin`. -/
def abs_url (uj : UJ) (href : String) : String :=
  if href = "" then ""
  else if String.isPrefixOf "http://" href || String.isPrefixOf "https://" href then href
  else uj href

/-- Evaluate an effectful step for each list element in order,
propagating the first raised exception — the loop shape shared by the
embedded Python comprehensions. -/
def exceptMap (f : α → Except PyErr β) : List α → Except PyErr (List β)
  | [] => Except.ok []
  | a :: rest => do
    let b ← f a
    let bs ← exceptMap f rest
    Except.ok (b :: bs)

/-- Lookup in a Python dict with string values (`b["url"]` on a
bookmark record). -/
def pyDictGetS : List (String × String) → String → Option String
  | [], _ => none
  | (k, v) :: rest, key => if k = key then some v else pyDictGetS rest key

/-! ## `_unique_ordered_stories` (cbc.py lines 178-185). -/

/-- The loop of `_unique_ordered_stories`: `seen` is the set of urls
already emitted; a story is kept when its url is truthy (non-empty) and
unseen. -/
def uos_go : List Story → List String → List Story
  | [], _ => []
  | s :: rest, seen =>
    if s.url ≠ "" ∧ s.url ∉ seen then s :: uos_go rest (s.url :: seen)
    else uos_go rest seen

/-- `_unique_ordered_stories(items)`. -/
def unique_ordered_stories (items : List Story) : List Story := uos_go items []

/-! ## `CBCSource.get_stories` (cbc.py lines 94-126). -/

/-- What the code reads off one anchor matched by
`soup.select("a[href*='/lite/story/']")`: the raw `href` attribute, the
stripped text of the first inner `span` (if any), the anchor's
`get_text(" ", strip=True)`, and the stripped text of the following
sibling `p` (if any). -/
structure StoryAnchor where
  href : String
  spanText : Option String
  fullText : String
  sibling : Option String

/-- A fetched and parsed section listing page. `parseFails` stands for
`BeautifulSoup`/parsing raising inside the `try` (cbc.py lines
101-126), which the code turns into an empty list. -/
structure StoriesDoc where
  parseFails : Bool
  anchors : List StoryAnchor

/-- The story built from one anchor (cbc.py lines 104-122): absolute
url, flag from the inner span, title with the flag substring removed
and stripped, summary from the sibling paragraph; entries with an empty
title or url are discarded. -/
def CBC.story_of_anchor (uj : UJ) (ra burls : List String) (a : StoryAnchor) :
    Option Story :=
  let href := abs_url uj a.href
  let flag := a.spanText
  let title := pyStrip ((a.fullText).replace (flag.getD "") "")
  if title ≠ "" ∧ href ≠ "" then
    some { title := title, url := href, flag := flag, summary := a.sibling,
           read := ra.contains href, bookmarked := burls.contains href }
  else none

/-- The raw list of stories parsed from the page, in document order,
before de-duplication. -/
def CBC.raw_stories (uj : UJ) (d : StoriesDoc) (ra burls : List String) :
    List Story :=
  (d.anchors.filter (fun a => strContains a.href "/lite/story/")).filterMap
    (CBC.story_of_anchor uj ra burls)

/-- `CBCSource.get_stories(section, read_articles, bookmarks)`. The
bookmark-url set `{b["url"] for b in bookmarks}` is built first (line
97) and raises `KeyError` on a record without `"url"`; a failed fetch
or a parse failure yields `[]`; otherwise the parsed stories are
de-duplicated by `_unique_ordered_stories`. -/
def bookmark_url (b : List (String × String)) : Except PyErr String :=
  match pyDictGetS b "url" with
  | some u => Except.ok u
  | none => Except.error PyErr.keyError

/-- See the comment above `bookmark_url`. -/
def CBC.get_stories (uj : UJ) (odoc : Option StoriesDoc) (ra : List String)
    (bms : List (List (String × String))) : Except PyErr (List Story) := do
  let burls ← exceptMap bookmark_url bms
  match odoc with
  | none => Except.ok []
  | some d =>
    if d.parseFails then Except.ok []
    else Except.ok (unique_ordered_stories (CBC.raw_stories uj d ra burls))

/-! ## `RSSSource` (rss.py). -/

/-- One `feedparser` entry as the code reads it: `entry["title"]`,
`entry["link"]` and `entry.link` raise when the key is missing,
`entry.get("summary", "")` defaults, `"content" in entry` tests
presence and `entry.content` is a list of parts of which only those
with a `value` key contribute. -/
structure FeedEntry where
  title : Option String
  link : Option String
  summary : Option String
  content : Option (List (Option String))

/-- `RSSSource.get_stories` (rss.py lines 23-41): the bookmark-url set
is built first, then one `Story` per entry in feed order — with no
de-duplication. `sh` is the `BeautifulSoup(...).get_text()` HTML
stripper applied to the summary. -/
def RSS.story_of_entry (sh : String → String) (ra burls : List String)
    (e : FeedEntry) : Except PyErr Story := do
  let t ← match e.title with
    | some t => Except.ok t
    | none => Except.error PyErr.keyError
  let l ← match e.link with
    | some l => Except.ok l
    | none => Except.error PyErr.keyError
  Except.ok { title := t, url := l, flag := none,
              summary := some (sh (e.summary.getD "")),
              read := ra.contains l, bookmarked := burls.contains l }

/-- See the comment above `RSS.story_of_entry`. -/
def RSS.get_stories (sh : String → String) (entries : List FeedEntry)
    (ra : List String) (bms : List (List (String × String))) :
    Except PyErr (List Story) := do
  let burls ← exceptMap bookmark_url bms
  exceptMap (RSS.story_of_entry sh ra burls) entries

/-- The entry loop of `RSSSource.get_story_content` (rss.py lines
47-58): the first entry whose `link` equals the story url is used;
`entry.link` on an entry without a link raises `AttributeError`; an
entry that matches but has neither `content` nor `summary` is skipped
and the loop continues. -/
def rss_content_go (sh : String → String) (surl : String) :
    List FeedEntry → Except PyErr PyDict
  | [] => Except.ok noContentDict
  | e :: rest =>
    match e.link with
    | none => Except.error PyErr.attributeError
    | some l =>
      if l = surl then
        match e.content with
        | some parts =>
          Except.ok (okDict (sh (pyJoinSep "\n" (parts.filterMap id))))
        | none =>
          match e.summary with
          | some s => Except.ok (okDict (sh s))
          | none => rss_content_go sh surl rest
      else rss_content_go sh surl rest

/-- `RSSSource.get_story_content(story, section)`: re-parses the feed
(given here as its entries) and scans for the story's url. -/
def RSS.get_story_content (sh : String → String) (entries : List FeedEntry)
    (surl : String) : Except PyErr PyDict :=
  rss_content_go sh surl entries

/-! ## Claim C2: de-duplication. -/

/-- Every story emitted by the de-duplication loop has a non-empty url
that was not in the already-seen set. -/
theorem uos_go_mem (s : Story) :
    ∀ (l : List Story) (seen : List String), s ∈ uos_go l seen →
      s.url ∉ seen ∧ s.url ≠ "" := by
  intro l
  induction l with
  | nil => intro seen h; simp [uos_go] at h
  | cons a rest ih =>
    intro seen h
    rw [uos_go] at h
    by_cases hc : a.url ≠ "" ∧ a.url ∉ seen
    · rw [if_pos hc] at h
      rcases List.mem_cons.mp h with rfl | hmem
      · exact ⟨hc.2, hc.1⟩
      · have := ih (a.url :: seen) hmem
        exact ⟨fun hs => this.1 (List.mem_cons_of_mem _ hs), this.2⟩
    · rw [if_neg hc] at h
      exact ih seen h

/-- The de-duplication loop output is a sublist of its input (document
order preserved). -/
theorem uos_go_sublist :
    ∀ (l : List Story) (seen : List String), List.Sublist (uos_go l seen) l := by
  intro l
  induction l with
  | nil => intro seen; simp [uos_go]
  | cons a rest ih =>
    intro seen
    rw [uos_go]
    by_cases hc : a.url ≠ "" ∧ a.url ∉ seen
    · rw [if_pos hc]; exact List.Sublist.cons₂ a (ih (a.url :: seen))
    · rw [if_neg hc]; exact List.Sublist.cons a (ih seen)

/-- No two stories emitted by the de-duplication loop share a url. -/
theorem uos_go_pairwise :
    ∀ (l : List Story) (seen : List String),
      (uos_go l seen).Pairwise (fun a b => a.url ≠ b.url) := by
  intro l
  induction l with
  | nil => intro seen; simp [uos_go]
  | cons a rest ih =>
    intro seen
    rw [uos_go]
    by_cases hc : a.url ≠ "" ∧ a.url ∉ seen
    · rw [if_pos hc]
      refine List.Pairwise.cons ?_ (ih (a.url :: seen))
      intro b hb
      have := (uos_go_mem b rest (a.url :: seen) hb).1
      exact fun he => this (he ▸ List.mem_cons_self a.url seen)
    · rw [if_neg hc]; exact ih seen

/-- First occurrence wins: every emitted story is the first story in
the input carrying its url. -/
theorem uos_go_find (s : Story) :
    ∀ (l : List Story) (seen : List String), s ∈ uos_go l seen →
      List.find? (fun t => t.url == s.url) l = some s := by
  intro l
  induction l with
  | nil => intro seen h; simp [uos_go] at h
  | cons a rest ih =>
    intro seen h
    rw [uos_go] at h
    by_cases hc : a.url ≠ "" ∧ a.url ∉ seen
    · rw [if_pos hc] at h
      rcases List.mem_cons.mp h with rfl | hmem
      · exact List.find?_cons_of_pos _ (by simp)
      · have hs := uos_go_mem s rest (a.url :: seen) hmem
        have hne : (a.url == s.url) = false := by
          simp only [beq_eq_false_iff_ne, ne_eq]
          exact fun he => hs.1 (he ▸ List.mem_cons_self a.url seen)
        rw [List.find?_cons_of_neg _ (by simpa using hne)]
        exact ih (a.url :: seen) hmem
    · rw [if_neg hc] at h
      have hs := uos_go_mem s rest seen h
      have hne : (a.url == s.url) = false := by
        simp only [beq_eq_false_iff_ne, ne_eq]
        rcases not_and_or.mp hc with h1 | h1
        · have : a.url = "" := not_not.mp (by simpa using h1)
          exact fun he => hs.2 (he ▸ this)
        · have : a.url ∈ seen := not_not.mp h1
          exact fun he => hs.1 (he ▸ this)
      rw [List.find?_cons_of_neg _ (by simpa using hne)]
      exact ih seen h

/-- Claim C2 counterexample: the claim quantifies over every source
variant, but `RSSSource.get_stories` performs no de-duplication — a
feed whose two entries share the link `"u"` yields two stories with
equal urls. -/
theorem c2_rss_no_dedup_cex :
    RSS.get_stories (fun s => s)
        [{ title := some "A", link := some "u", summary := some "s1", content := none },
         { title := some "B", link := some "u", summary := some "s2", content := none }]
        [] [] =
      Except.ok
        [{ title := "A", url := "u", flag := none, summary := some "s1",
           read := false, bookmarked := false },
         { title := "B", url := "u", flag := none, summary := some "s2",
           read := false, bookmarked := false }] ∧
    ¬ ([{ title := "A", url := "u", flag := none, summary := some "s1",
           read := false, bookmarked := false },
        { title := "B", url := "u", flag := none, summary := some "s2",
           read := false, bookmarked := false }] :
        List Story).Pairwise (fun a b => a.url ≠ b.url) := by
  refine ⟨rfl, fun h => ?_⟩
  exact (List.pairwise_cons.mp h).1 _ (List.mem_cons_self _ _) rfl

/-- Claim C2 (amended): for the ScrapedSite (CBC) variant,
`get_stories` returns a list in which no two stories share a url, in
first-seen document order, retaining for each url the first-encountered
entry (title, flag and all); the feed variant returns the entries
unchanged without de-duplication. Stated here for the CBC side:
`_unique_ordered_stories` satisfies the de-duplication law and
`CBCSource.get_stories` returns exactly its result on every
successfully parsed document. -/
theorem c2_dedup_scraped (l : List Story) (uj : UJ) (ra : List String)
    (doc : StoriesDoc) :
    ((unique_ordered_stories l).Pairwise (fun a b => a.url ≠ b.url)) ∧
    List.Sublist (unique_ordered_stories l) l ∧
    (∀ s ∈ unique_ordered_stories l,
      List.find? (fun t => t.url == s.url) l = some s) ∧
    (doc.parseFails = false →
      CBC.get_stories uj (some doc) ra [] =
        Except.ok (unique_ordered_stories (CBC.raw_stories uj doc ra []))) := by
  refine ⟨uos_go_pairwise l [], uos_go_sublist l [],
    fun s hs => uos_go_find s l [] hs, fun hp => ?_⟩
  simp [CBC.get_stories, exceptMap, hp]
  rfl

/-- Witness for C2 at concrete inputs: a listing with a duplicated
url keeps the first entry only, and `get_stories` returns the
de-duplicated list. -/
theorem c2_dedup_scraped_witness :
    (∀ s ∈ unique_ordered_stories
        [{ title := "A", url := "u", flag := none, summary := none,
           read := false, bookmarked := false },
         { title := "B", url := "u", flag := none, summary := none,
           read := false, bookmarked := false }],
      List.find? (fun t => t.url == s.url)
        [{ title := "A", url := "u", flag := none, summary := none,
           read := false, bookmarked := false },
         { title := "B", url := "u", flag := none, summary := none,
           read := false, bookmarked := false }] = some s) ∧
    CBC.get_stories (fun s => s)
        (some { parseFails := false,
                anchors := [{ href := "/lite/story/1", spanText := none,
                              fullText := "T", sibling := none }] }) [] [] =
      Except.ok (unique_ordered_stories
        (CBC.raw_stories (fun s => s)
          { parseFails := false,
            anchors := [{ href := "/lite/story/1", spanText := none,
                          fullText := "T", sibling := none }] } [] [])) :=
  ⟨(c2_dedup_scraped _ (fun s => s) []
      { parseFails := false, anchors := [] }).2.2.1,
    (c2_dedup_scraped [] (fun s => s) []
      { parseFails := false,
        anchors := [{ href := "/lite/story/1", spanText := none,
                      fullText := "T", sibling := none }] }).2.2.2 rfl⟩

/-! ## Claim C4: no exception crosses the adapter boundary. -/

/-- If every element maps successfully, the whole loop succeeds. -/
theorem exceptMap_ok (f : α → Except PyErr β) :
    ∀ (l : List α), (∀ a ∈ l, ∃ b, f a = Except.ok b) →
      ∃ bs, exceptMap f l = Except.ok bs := by
  intro l
  induction l with
  | nil => intro _; exact ⟨[], rfl⟩
  | cons a rest ih =>
    intro h
    obtain ⟨b, hb⟩ := h a (List.mem_cons_self a rest)
    obtain ⟨bs, hbs⟩ := ih (fun x hx => h x (List.mem_cons_of_mem a hx))
    refine ⟨b :: bs, ?_⟩
    simp only [exceptMap, hb, hbs]
    rfl

/-- Claim C4 counterexample: `getStories` does raise. A malformed feed
whose single entry has no `title` key makes `RSSSource.get_stories`
raise `KeyError` out of the adapter (rss.py line 34 has no handler),
so the claim's "never raise for every source variant and every input
document" is false. -/
theorem c4_rss_missing_title_raises_cex :
    RSS.get_stories (fun s => s)
        [{ title := none, link := some "u", summary := some "s", content := none }]
        [] [] =
      Except.error PyErr.keyError := rfl

/-- Claim C4 (amended): the ScrapedSite operations contain their
internal failures — a failed fetch or a parse failure yields `[]` from
`get_stories` — and the feed variant's operations raise no exception
provided every feed entry carries the keys the code accesses (`title`
and `link`) and every bookmark record carries `url`; on a feed entry
missing those keys `get_stories`/`get_story_content` raise
`KeyError`/`AttributeError`. -/
theorem c4_no_raise_amended (sh : String → String)
    (entries entries2 : List FeedEntry) (ra : List String)
    (bms : List (List (String × String))) (surl : String) (uj : UJ)
    (anchors : List StoryAnchor) :
    ((∀ e ∈ entries, e.title ≠ none ∧ e.link ≠ none) →
      (∀ b ∈ bms, pyDictGetS b "url" ≠ none) →
      ∃ l, RSS.get_stories sh entries ra bms = Except.ok l) ∧
    ((∀ e ∈ entries2, e.link ≠ none) →
      ∃ d, RSS.get_story_content sh entries2 surl = Except.ok d) ∧
    CBC.get_stories uj none ra [] = Except.ok [] ∧
    CBC.get_stories uj (some { parseFails := true, anchors := anchors }) ra [] =
      Except.ok [] := by
  refine ⟨fun he hb => ?_, fun he => ?_, rfl, rfl⟩
  · obtain ⟨burls, hburls⟩ := exceptMap_ok bookmark_url bms (fun b hbm => by
      rcases hu : pyDictGetS b "url" with _ | u
      · exact absurd hu (hb b hbm)
      · exact ⟨u, by simp [bookmark_url, hu]⟩)
    obtain ⟨stories, hstories⟩ := exceptMap_ok (RSS.story_of_entry sh ra burls)
      entries
      (fun e hme => by
        obtain ⟨h1, h2⟩ := he e hme
        rcases ht : e.title with _ | t
        · exact absurd ht h1
        rcases hl : e.link with _ | l
        · exact absurd hl h2
        refine ⟨{ title := t, url := l, flag := none,
                  summary := some (sh (e.summary.getD "")),
                  read := ra.contains l, bookmarked := burls.contains l }, ?_⟩
        simp only [RSS.story_of_entry, ht, hl]
        rfl)
    refine ⟨stories, ?_⟩
    simp only [RSS.get_stories, hburls]
    exact hstories
  · induction entries2 with
    | nil => exact ⟨noContentDict, rfl⟩
    | cons e rest ih =>
      rcases hle : e.link with _ | l
      · exact absurd hle (he e (List.mem_cons_self e rest))
      · obtain ⟨d, hd⟩ := ih (fun x hx => he x (List.mem_cons_of_mem e hx))
        simp only [RSS.get_story_content, rss_content_go, hle]
        by_cases hif : l = surl
        · rw [if_pos hif]
          rcases hc : e.content with _ | parts
          · rcases hs : e.summary with _ | s
            · exact ⟨d, hd⟩
            · exact ⟨_, rfl⟩
          · exact ⟨_, rfl⟩
        · rw [if_neg hif]
          exact ⟨d, hd⟩

/-- Witness for C4 at concrete inputs: a well-formed one-entry feed
produces a story list, a matching entry produces a content result, and
the ScrapedSite listing operations return empty lists on failure. -/
theorem c4_no_raise_amended_witness :
    (∃ l, RSS.get_stories (fun s => s)
        [{ title := some "T", link := some "u", summary := some "s", content := none }]
        [] [] = Except.ok l) ∧
    (∃ d, RSS.get_story_content (fun s => s)
        [{ title := some "T", link := some "u", summary := some "s", content := none }]
        "u" = Except.ok d) ∧
    CBC.get_stories (fun s => s) none [] [] = Except.ok [] := by
  have h := c4_no_raise_amended (fun s => s)
    [{ title := some "T", link := some "u", summary := some "s", content := none }]
    [{ title := some "T", link := some "u", summary := some "s", content := none }]
    [] [] "u" (fun s => s) []
  exact ⟨h.1 (by intro e he; simp at he; simp [he]) (by intro b hb; simp at hb),
    h.2.1 (by intro e he; simp at he; simp [he]), h.2.2.1⟩

/-! ## `CBCSource.get_sections` (cbc.py lines 70-92). -/

/-- What the code reads off one anchor matched by
`soup.select("nav a[href], a[href^='/lite']")` on a listing page: the
raw `href` attribute and `get_text(strip=True)`. -/
structure NavAnchor where
  href : String
  txt : String

/-- A fetched and parsed listing page for section discovery;
`parseFails` stands for `BeautifulSoup` raising inside the per-page
`try` (cbc.py lines 77-91), which leaves the section map untouched. -/
structure SectionsDoc where
  parseFails : Bool
  anchors : List NavAnchor

/-- `if not allowed_sections or title in allowed_sections` (cbc.py line
88): `config.get("sections")` absent (`None`) or an empty list is
falsy and admits everything. -/
def allowedOk (allowed : Option (List String)) (title : String) : Bool :=
  match allowed with
  | none => true
  | some l => l.isEmpty || l.contains title

/-- The body of the anchor loop (cbc.py lines 79-89): accumulate the
insertion-ordered `sections_map`. An anchor contributes when its
resolved href contains `/lite` but not `/lite/story/`, its title is
non-empty, not in the `{"menu", "search"}` blocklist (lowercased), not
already in the map, and passes the configured filter. -/
def sectionsFold (uj : UJ) (allowed : Option (List String)) :
    List (String × Section) → List NavAnchor → List (String × Section)
  | m, [] => m
  | m, a :: rest =>
    let href := abs_url uj a.href
    if strContains href "/lite" && !strContains href "/lite/story/" then
      let title := a.txt
      if title ≠ "" ∧ title.toLower ∉ ["menu", "search"] ∧
          (m.lookup title).isNone ∧ allowedOk allowed title then
        sectionsFold uj allowed (m ++ [(title, { title := title, url := href })]) rest
      else sectionsFold uj allowed m rest
    else sectionsFold uj allowed m rest

/-- One page's contribution to the section map: a failed fetch
(`continue`) or a parse failure leaves the map unchanged. -/
def processPage (uj : UJ) (allowed : Option (List String))
    (m : List (String × Section)) : Option SectionsDoc → List (String × Section)
  | none => m
  | some d => if d.parseFails then m else sectionsFold uj allowed m d.anchors

/-- The sections discovered from the two listing pages
(`HOME_PAGE_URL`, `SECTIONS_PAGE_URL`), in insertion order. -/
def CBC.discovered_sections (uj : UJ) (allowed : Option (List String))
    (home secs : Option SectionsDoc) : List Section :=
  (processPage uj allowed (processPage uj allowed [] home) secs).map Prod.snd

/-- `CBCSource.get_sections()` (cbc.py line 92): the `Home` section is
prepended unconditionally to the discovered map's values. -/
def CBC.get_sections (uj : UJ) (allowed : Option (List String))
    (home secs : Option SectionsDoc) : List Section :=
  { title := "Home", url := HOME_PAGE_URL } :: CBC.discovered_sections uj allowed home secs

/-- Claim C10: `get_sections` always returns a non-empty list whose
first element is the `Home` section pointing at `HOME_PAGE_URL`; the
entry is prepended before the discovered sections regardless of the
configured allowed-sections filter (the statement quantifies over every
`allowed`, including filters excluding "Home"), and it is still there
when both listing-page fetches fail or both parses raise. -/
theorem c10_home_section_always_first (uj : UJ) (allowed : Option (List String))
    (home secs : Option SectionsDoc) (a1 a2 : List NavAnchor) :
    CBC.get_sections uj allowed home secs ≠ [] ∧
    (CBC.get_sections uj allowed home secs).head? =
      some { title := "Home", url := HOME_PAGE_URL } ∧
    CBC.get_sections uj allowed home secs =
      { title := "Home", url := HOME_PAGE_URL } ::
        CBC.discovered_sections uj allowed home secs ∧
    CBC.get_sections uj allowed none none =
      [{ title := "Home", url := HOME_PAGE_URL }] ∧
    CBC.get_sections uj allowed (some { parseFails := true, anchors := a1 })
        (some { parseFails := true, anchors := a2 }) =
      [{ title := "Home", url := HOME_PAGE_URL }] := by
  refine ⟨by simp [CBC.get_sections], rfl, rfl, rfl, ?_⟩
  simp [CBC.get_sections, CBC.discovered_sections, processPage]

/-! ## `PLACEHOLDER_PATTERN` (config.py line 31):
`re.compile(r"\b(loading|unable to load|error|retrying)\b", re.I)`
applied with `.search`. -/

/-- A regex word character (`\w`, ASCII fragment). -/
def isWordChar (c : Char) : Bool := c.isAlphanum || c = '_'

/-- Case-insensitive character comparison (`re.I`). -/
def ciEq (a b : Char) : Bool := a.toLower = b.toLower

/-- If `p` matches case-insensitively at the head of `t`, return the
rest of `t`. -/
def ciPref : List Char → List Char → Option (List Char)
  | [], t => some t
  | _ :: _, [] => none
  | p :: ps, c :: cs => if ciEq p c then ciPref ps cs else none

/-- The `\b` conditions around one candidate match: the character
before the match (if any) and the text after the match must not
continue a word (the phrases begin and end with word characters). -/
def boundaryOk (prev : Option Char) (rest : List Char) : Bool :=
  (match prev with
   | none => true
   | some c => !isWordChar c) &&
  (match rest with
   | [] => true
   | c :: _ => !isWordChar c)

/-- Scan every start position of `t` for a `\b p \b` match, tracking
the previous character for the left boundary. -/
def searchCI (p : List Char) : Option Char → List Char → Bool
  | _, [] => false
  | prev, c :: cs =>
    (match ciPref p (c :: cs) with
     | some rest => boundaryOk prev rest
     | none => false) || searchCI p (some c) cs

/-- `PLACEHOLDER_PATTERN.search(text)` as a Boolean. -/
def placeholderSearch (s : String) : Bool :=
  ["loading", "unable to load", "error", "retrying"].any
    fun p => searchCI p.data none s.data

/-- `_is_placeholder_text` (cbc.py lines 188-195): empty text, fewer
than `MIN_ARTICLE_WORDS` words, or a placeholder-pattern match. -/
def is_placeholder_text (s : String) : Bool :=
  if s = "" then true
  else if wordCount s < MIN_ARTICLE_WORDS then true
  else placeholderSearch s

/-! ## `_parse_json_node_to_markdown` (cbc.py lines 198-223). -/

/-- `node_type == "text"`: true only when the `type` value is the
string `"text"`. -/
def isTextType : Option Json → Bool
  | some (Json.str t) => t = "text"
  | _ => false

/-- The `blockquote` entry of the tag table:
`"".join(f"> {line}\n" for line in child_content.strip().split("\n")) + "\n"` —
each line of the trimmed children on its own `"> "`-prefixed line, plus
one trailing newline. -/
def bqRender (cc : String) : String :=
  String.join ((pySplitCh (fun c => c = '\n') (pyStrip cc)).map
    (fun l => "> " ++ l ++ "\n")) ++ "\n"

/-- The `a` entry's href:
`_abs_url(node.get('attrs', {}).get('href', ''))`, evaluated eagerly
while the tag table dict is built (so a malformed `attrs` raises even
for other tags). `.get` on a non-dict raises `AttributeError`; a truthy
non-string href makes `_abs_url`'s `.startswith` raise. -/
def hrefFromAttrs (uj : UJ) (kvs : List (String × Json)) : Except PyErr String :=
  match (jLookup kvs "attrs").getD (Json.obj []) with
  | Json.obj akvs =>
    match (jLookup akvs "href").getD (Json.str "") with
    | Json.str h => Except.ok (abs_url uj h)
    | Json.null => Except.ok ""
    | Json.bool b => if b then Except.error PyErr.attributeError else Except.ok ""
    | Json.num q => if q = 0 then Except.ok "" else Except.error PyErr.attributeError
    | Json.arr l => if l.isEmpty then Except.ok "" else Except.error PyErr.attributeError
    | Json.obj o => if o.isEmpty then Except.ok "" else Except.error PyErr.attributeError
  | _ => Except.error PyErr.attributeError

/-- The tag table (cbc.py lines 207-222) applied to a string tag, with
`cc` the joined child content and `h` the resolved `a`-href; an
unrecognized tag falls through to the children unchanged
(`tag_map.get(tag, child_content)`). -/
def tagTable (t cc h : String) : String :=
  if t = "p" then pyStrip cc ++ "\n\n"
  else if t = "h2" then "## " ++ pyStrip cc ++ "\n\n"
  else if t = "h3" then "### " ++ pyStrip cc ++ "\n\n"
  else if t = "a" then "[" ++ cc ++ "](" ++ h ++ ")"
  else if t = "ul" then cc ++ "\n"
  else if t = "li" then "- " ++ pyStrip cc ++ "\n"
  else if t = "blockquote" then bqRender cc
  else if t = "strong" ∨ t = "b" then "**" ++ cc ++ "**"
  else if t = "em" ∨ t = "i" then "*" ++ cc ++ "*"
  else cc

/-- `tag_map.get(tag, child_content)`: a missing or hashable non-string
tag selects the default; an unhashable tag (list/dict) raises
`TypeError`. -/
def tagDispatch (tagJ : Option Json) (cc h : String) : Except PyErr String :=
  match tagJ with
  | some (Json.str t) => Except.ok (tagTable t cc h)
  | some (Json.arr _) => Except.error PyErr.typeError
  | some (Json.obj _) => Except.error PyErr.typeError
  | _ => Except.ok cc

/-- The non-recursive part of `_parse_json_node_to_markdown` on a dict
node, given the already-joined child content. A `text` node returns its
`content` string (missing key defaults to `""`; a non-string value
would make the parent's `"".join` raise `TypeError`). Otherwise the
child content is consumed first, then the eagerly-built tag table
(including the `a` href) dispatches on the tag. -/
def mkNodeRender (uj : UJ) (kvs : List (String × Json))
    (childE : Except PyErr String) : Except PyErr String :=
  if isTextType (jLookup kvs "type") then
    match jLookup kvs "content" with
    | some (Json.str s) => Except.ok s
    | none => Except.ok ""
    | some _ => Except.error PyErr.typeError
  else do
    let cc ← childE
    let h ← hrefFromAttrs uj kvs
    tagDispatch (jLookup kvs "tag") cc h

mutual

/-- `_parse_json_node_to_markdown(node)`: a non-dict node yields `""`
(cbc.py lines 199-200); a dict node renders via the tag dispatch over
its joined children. -/
def parse_json_node_to_markdown (uj : UJ) (j : Json) : Except PyErr String :=
  match j with
  | Json.obj kvs => mkNodeRender uj kvs (contentChildren uj kvs)
  | _ => Except.ok ""
termination_by sizeOf j

/-- `node.get("content", [])` fused with the recursion into the found
value: scan the node's keys for `content` (missing key defaults to the
empty child list, i.e. `""`). -/
def contentChildren (uj : UJ) (kvs : List (String × Json)) : Except PyErr String :=
  match kvs with
  | [] => Except.ok ""
  | (k, v) :: rest =>
    if k = "content" then childrenOf uj v else contentChildren uj rest
termination_by sizeOf kvs

/-- `"".join(_parse_json_node_to_markdown(c) for c in content)`:
iterating a list renders each element; iterating a string yields its
characters (non-dicts, each rendering `""`) and a dict yields its keys
(likewise `""`); iterating `None`/a number/a bool raises `TypeError`. -/
def childrenOf (uj : UJ) (j : Json) : Except PyErr String :=
  match j with
  | Json.arr l => renderList uj l
  | Json.str _ => Except.ok ""
  | Json.obj _ => Except.ok ""
  | _ => Except.error PyErr.typeError
termination_by sizeOf j

/-- Join the renderings of a list of child nodes, propagating the first
raised exception. -/
def renderList (uj : UJ) (l : List Json) : Except PyErr String :=
  match l with
  | [] => Except.ok ""
  | j :: js => do
    let h ← parse_json_node_to_markdown uj j
    let t ← renderList uj js
    Except.ok (h ++ t)
termination_by sizeOf l

end

/-! ## `CBCSource.get_story_content` (cbc.py lines 128-167). -/

/-- `x.get(key, default)` on a JSON value: raises `AttributeError` on a
non-dict receiver. -/
def pyGetD (j : Json) (key : String) (d : Json) : Except PyErr Json :=
  match j with
  | Json.obj kvs => Except.ok ((jLookup kvs key).getD d)
  | _ => Except.error PyErr.attributeError

/-- Python `for x in j`: a list yields its elements, a string its
characters, a dict its keys; anything else raises `TypeError`. -/
def pyIterJ : Json → Except PyErr (List Json)
  | Json.arr l => Except.ok l
  | Json.str s => Except.ok (s.data.map (fun c => Json.str (String.mk [c])))
  | Json.obj kvs => Except.ok (kvs.map (fun kv => Json.str kv.fst))
  | _ => Except.error PyErr.typeError

/-- `str(v)` as used inside the f-strings (`f"# {title}"`,
`f"- [{s.get('title')}]..."`). The string/None/bool renderings are
exact; number and container renderings are approximations (no claim
depends on them). -/
def pyFStr : Json → String
  | Json.null => "None"
  | Json.bool b => if b then "True" else "False"
  | Json.num q => toString q
  | Json.str s => s
  | Json.arr _ => "[...]"
  | Json.obj _ => "\x7b...\x7d"

/-- `_abs_url(s.get('url'))` where the argument may be any JSON value
or missing: falsy values short-circuit to `""`, a string is resolved,
and a truthy non-string makes `.startswith` raise `AttributeError`. -/
def absUrlOfJson (uj : UJ) : Option Json → Except PyErr String
  | none => Except.ok ""
  | some (Json.str h) => Except.ok (abs_url uj h)
  | some v => if pyTruthy v then Except.error PyErr.attributeError else Except.ok ""

/-- One `moreStories` link:
`f"- [{s.get('title')}]({_abs_url(s.get('url'))})\n"`; `s.get` on a
non-dict raises. -/
def more_story_md (uj : UJ) (s : Json) : Except PyErr String :=
  match s with
  | Json.obj kvs => do
    let href ← absUrlOfJson uj (jLookup kvs "url")
    Except.ok ("- [" ++ (match jLookup kvs "title" with
      | some v => pyFStr v
      | none => "None") ++ "](" ++ href ++ ")\n")
  | _ => Except.error PyErr.attributeError

/-- The structured-tree strategy (cbc.py lines 137-153), producing the
`full` string before the word-count gate. The `.get` chain with `{}`
defaults walks `props.pageProps.articleData`; the title defaults to
`"No Title"`; every node of `body.parsed` is rendered; a truthy
`moreStories` appends the `## More Stories` section; the joined parts
are HTML-unescaped (`ue`) and stripped. Any raised exception is caught
by the `except Exception` and falls through. -/
def structured_full (uj : UJ) (ue : String → String) (data : Json) :
    Except PyErr String := do
  let props ← pyGetD data "props" (Json.obj [])
  let pageProps ← pyGetD props "pageProps" (Json.obj [])
  let article ← pyGetD pageProps "articleData" (Json.obj [])
  let titleStr ← match article with
    | Json.obj kvs => Except.ok (match jLookup kvs "title" with
        | some v => pyFStr v
        | none => "No Title")
    | _ => Except.error PyErr.attributeError
  let body ← pyGetD article "body" (Json.obj [])
  let parsed ← pyGetD body "parsed" (Json.arr [])
  let nodes ← pyIterJ parsed
  let parts ← exceptMap (parse_json_node_to_markdown uj) nodes
  let more ← pyGetD article "moreStories" (Json.arr [])
  let moreParts ← if pyTruthy more then do
      let ms ← pyIterJ more
      let links ← exceptMap (more_story_md uj) ms
      Except.ok ("\n\n---\n\n## More Stories\n\n" :: links)
    else Except.ok []
  Except.ok (pyStrip (ue (String.join
    (("# " ++ titleStr ++ "\n\n") :: parts ++ moreParts))))

/-- A fetched and parsed story page: `nextData` is the
`__NEXT_DATA__` script's JSON (`none` = script or its string absent;
`some none` = `json.loads` raised); `paras` is the
`get_text(" ", strip=True)` of the `p` elements under `main` (or the
whole soup); `docFails` stands for the outer `try` (cbc.py lines
132-166) raising before the strategies run, which the code turns into
the final failure result. -/
structure FetchedDoc where
  docFails : Bool
  nextData : Option (Option Json)
  paras : List String

/-- The paragraph-scrape candidate (cbc.py lines 160-162):
`"\n\n".join([p for p in paras if p]).strip()`. -/
def para_candidate (d : FetchedDoc) : String :=
  pyStrip (pyJoinSep "\n\n" (d.paras.filter (fun p => p ≠ "")))

/-- The paragraph strategy plus final failure (cbc.py lines 163-167):
accept the candidate unless it is empty or placeholder-like. -/
def para_stage (d : FetchedDoc) : PyDict :=
  let cand := para_candidate d
  if cand ≠ "" ∧ is_placeholder_text cand = false then okDict cand
  else extractFailDict

/-- The structured strategy's outcome for a document: `some full` when
the embedded JSON was present, parsed, and rendered without an
exception (the word-count gate is applied by the caller); `none`
otherwise. -/
def CBC.structured_opt (uj : UJ) (ue : String → String) (d : FetchedDoc) :
    Option String :=
  match d.nextData with
  | some (some dataJ) => (structured_full uj ue dataJ).toOption
  | _ => none

/-- `CBCSource.get_story_content(story, section)`: a failed fetch
returns the fetch-failure dict without attempting extraction; a raised
parse gives the final failure; otherwise the structured strategy's
result is accepted only above the word gate, falling through to the
paragraph stage. -/
def CBC.get_story_content (uj : UJ) (ue : String → String)
    (doc : Option FetchedDoc) : PyDict :=
  match doc with
  | none => fetchFailDict
  | some d =>
    if d.docFails then extractFailDict
    else
      match CBC.structured_opt uj ue d with
      | some full =>
        if MIN_ARTICLE_WORDS < wordCount full then okDict full else para_stage d
      | none => para_stage d

/-! ## Claim C6: the tag-dispatch table. -/

/-- A text node (`{type: "text", content: s}`) renders to its literal
text. -/
theorem parse_text_node (uj : UJ) (s : String) :
    parse_json_node_to_markdown uj
      (Json.obj [("type", Json.str "text"), ("content", Json.str s)]) =
      Except.ok s := by
  rw [parse_json_node_to_markdown]
  simp [mkNodeRender, isTextType, jLookup]

/-- A singleton child list renders to its element's rendering. -/
theorem renderList_one (uj : UJ) (j : Json) (s : String)
    (h : parse_json_node_to_markdown uj j = Except.ok s) :
    renderList uj [j] = Except.ok s := by
  have h0 : renderList uj ([] : List Json) = Except.ok "" := by rw [renderList]
  rw [renderList, h, h0]
  show Except.ok (s ++ "") = Except.ok s
  simp

/-- On an element node `{type, tag, content}` the child lookup finds
the `content` list. -/
theorem contentChildren_elem (uj : UJ) (t : String) (cs : List Json) :
    contentChildren uj
      [("type", Json.str "element"), ("tag", Json.str t),
       ("content", Json.arr cs)] = renderList uj cs := by
  simp [contentChildren, childrenOf]

/-- An element node `{type: "element", tag: t, content: cs}` with
successfully rendered children dispatches through the tag table (with
an empty resolved href, since the node has no `attrs`). -/
theorem parse_elem_node (uj : UJ) (t : String) (cs : List Json) (cc : String)
    (h : renderList uj cs = Except.ok cc) :
    parse_json_node_to_markdown uj
      (Json.obj [("type", Json.str "element"), ("tag", Json.str t),
        ("content", Json.arr cs)]) =
      Except.ok (tagTable t cc "") := by
  rw [parse_json_node_to_markdown]
  rw [contentChildren_elem uj t cs, h]
  simp [mkNodeRender, isTextType, jLookup, hrefFromAttrs, tagDispatch, abs_url]
  rfl

/-- Claim C6: the recursive node-to-markdown renderer follows the
tag-dispatch table. A text node yields its literal text; the node tree
`{type:"element", tag:"p", content:[{type:"text", content:"Hello"}]}`
renders to `"Hello"` followed by exactly two newlines; a `blockquote`
yields each line of its trimmed children prefixed with `"> "` (each on
its own newline-terminated line) with one trailing newline appended
(`bqRender`); an unrecognized tag yields its children unchanged. -/
theorem c6_tag_dispatch (uj : UJ) :
    (∀ s : String,
      parse_json_node_to_markdown uj
        (Json.obj [("type", Json.str "text"), ("content", Json.str s)]) =
        Except.ok s) ∧
    parse_json_node_to_markdown uj
        (Json.obj [("type", Json.str "element"), ("tag", Json.str "p"),
          ("content", Json.arr
            [Json.obj [("type", Json.str "text"), ("content", Json.str "Hello")]])]) =
      Except.ok "Hello\n\n" ∧
    (∀ (cs : List Json) (cc : String), renderList uj cs = Except.ok cc →
      parse_json_node_to_markdown uj
        (Json.obj [("type", Json.str "element"), ("tag", Json.str "blockquote"),
          ("content", Json.arr cs)]) =
        Except.ok (bqRender cc)) ∧
    (∀ (t : String) (cs : List Json) (cc : String),
      renderList uj cs = Except.ok cc →
      t ∉ ["p", "h2", "h3", "a", "ul", "li", "blockquote", "strong", "b", "em", "i"] →
      parse_json_node_to_markdown uj
        (Json.obj [("type", Json.str "element"), ("tag", Json.str t),
          ("content", Json.arr cs)]) =
        Except.ok cc) := by
  refine ⟨parse_text_node uj, ?_, fun cs cc h => ?_, fun t cs cc h hmem => ?_⟩
  · rw [parse_elem_node uj "p" _ "Hello"
      (renderList_one uj _ "Hello" (parse_text_node uj "Hello"))]
    rfl
  · rw [parse_elem_node uj "blockquote" cs cc h]
    rfl
  · rw [parse_elem_node uj t cs cc h]
    simp only [List.mem_cons, List.not_mem_nil, or_false, not_or] at hmem
    obtain ⟨hp, hh2, hh3, ha, hul, hli, hbq, hst, hb, hem, hi⟩ := hmem
    simp [tagTable, hp, hh2, hh3, ha, hul, hli, hbq, hst, hb, hem, hi]

/-- Witness for C6: the blockquote and pass-through cases at concrete
inputs — `blockquote` over the text `"Hello"` renders to
`"> Hello\n\n"`, and the unrecognized tag `"video"` passes its child
text through unchanged. -/
theorem c6_tag_dispatch_witness :
    parse_json_node_to_markdown (fun s => s)
        (Json.obj [("type", Json.str "element"), ("tag", Json.str "blockquote"),
          ("content", Json.arr
            [Json.obj [("type", Json.str "text"), ("content", Json.str "Hello")]])]) =
      Except.ok "> Hello\n\n" ∧
    parse_json_node_to_markdown (fun s => s)
        (Json.obj [("type", Json.str "element"), ("tag", Json.str "video"),
          ("content", Json.arr
            [Json.obj [("type", Json.str "text"), ("content", Json.str "x")]])]) =
      Except.ok "x" := by
  constructor
  · rw [(c6_tag_dispatch (fun s => s)).2.2.1
      [Json.obj [("type", Json.str "text"), ("content", Json.str "Hello")]] "Hello"
      (renderList_one _ _ "Hello" (parse_text_node _ "Hello"))]
    rfl
  · exact (c6_tag_dispatch (fun s => s)).2.2.2 "video"
      [Json.obj [("type", Json.str "text"), ("content", Json.str "x")]] "x"
      (renderList_one _ _ "x" (parse_text_node _ "x"))
      (by decide)

/-! ## Claims C5 and C7: the acceptance gates and the result shape of
`get_story_content`. -/

/-- Characterisation of `_is_placeholder_text`. -/
theorem is_placeholder_iff (s : String) :
    is_placeholder_text s = true ↔
      s = "" ∨ wordCount s < MIN_ARTICLE_WORDS ∨ placeholderSearch s = true := by
  unfold is_placeholder_text
  split_ifs with h1 h2 <;> simp_all

/-- The paragraph stage returns either its accepted candidate or the
final failure dict. -/
theorem para_stage_shape (d : FetchedDoc) :
    para_stage d = okDict (para_candidate d) ∧
      (para_candidate d ≠ "" ∧ is_placeholder_text (para_candidate d) = false) ∨
    para_stage d = extractFailDict := by
  by_cases hc : para_candidate d ≠ "" ∧ is_placeholder_text (para_candidate d) = false
  · left; exact ⟨by simp only [para_stage, if_pos hc], hc⟩
  · right; simp only [para_stage, if_neg hc]

/-- Unfolding `get_story_content` when the structured strategy
produced a candidate. -/
theorem gsc_structured (uj : UJ) (ue : String → String) (d : FetchedDoc)
    (full : String) (hdf : d.docFails = false)
    (hso : CBC.structured_opt uj ue d = some full) :
    CBC.get_story_content uj ue (some d) =
      if MIN_ARTICLE_WORDS < wordCount full then okDict full else para_stage d := by
  simp [CBC.get_story_content, hdf, hso]

/-- Unfolding `get_story_content` when the structured strategy fell
through. -/
theorem gsc_para (uj : UJ) (ue : String → String) (d : FetchedDoc)
    (hdf : d.docFails = false) (hso : CBC.structured_opt uj ue d = none) :
    CBC.get_story_content uj ue (some d) = para_stage d := by
  simp [CBC.get_story_content, hdf, hso]

/-- An accepted paragraph-stage result always carries at least the
minimum word count. -/
theorem para_stage_min_words (d : FetchedDoc) (c : String)
    (h1 : pyDLookup (para_stage d) "ok" = some (PyVal.vB true))
    (h2 : pyDLookup (para_stage d) "content" = some (PyVal.vS c)) :
    MIN_ARTICLE_WORDS ≤ wordCount c := by
  rcases para_stage_shape d with ⟨hok, hne, hpf⟩ | hfail
  · rw [hok] at h2
    simp [okDict, pyDLookup] at h2
    subst h2
    by_contra hlt
    have := (is_placeholder_iff (para_candidate d)).mpr
      (Or.inr (Or.inl (by omega)))
    rw [this] at hpf
    cases hpf
  · rw [hfail] at h1
    simp [extractFailDict, pyDLookup] at h1

/-- Claim C5: `CBCSource.get_story_content` never returns `ok: True`
with fewer than `MIN_ARTICLE_WORDS` (15) words of content; the
structured-tree result is used only when its word count strictly
exceeds the threshold (otherwise the call falls through to the
paragraph stage); and the paragraph-scrape candidate is rejected (final
failure) when it is empty, has fewer than the minimum word count, or
matches the case-insensitive placeholder vocabulary. -/
theorem c5_word_threshold (uj : UJ) (ue : String → String)
    (od : Option FetchedDoc) :
    (∀ c, pyDLookup (CBC.get_story_content uj ue od) "ok" = some (PyVal.vB true) →
      pyDLookup (CBC.get_story_content uj ue od) "content" = some (PyVal.vS c) →
      MIN_ARTICLE_WORDS ≤ wordCount c) ∧
    (∀ d full, od = some d → d.docFails = false →
      CBC.structured_opt uj ue d = some full →
      wordCount full ≤ MIN_ARTICLE_WORDS →
      CBC.get_story_content uj ue od = para_stage d) ∧
    (∀ d : FetchedDoc,
      para_candidate d = "" ∨ wordCount (para_candidate d) < MIN_ARTICLE_WORDS ∨
        placeholderSearch (para_candidate d) = true →
      para_stage d = extractFailDict) := by
  refine ⟨fun c h1 h2 => ?_, fun d full hod hdf hso hwc => ?_, fun d hr => ?_⟩
  · rcases od with _ | d
    · simp [CBC.get_story_content, fetchFailDict, pyDLookup] at h1
    · by_cases hdf : d.docFails = true
      · simp [CBC.get_story_content, hdf, extractFailDict, pyDLookup] at h1
      · have hdf' : d.docFails = false := by simpa using hdf
        rcases hso : CBC.structured_opt uj ue d with _ | full
        · rw [gsc_para uj ue d hdf' hso] at h1 h2
          exact para_stage_min_words d c h1 h2
        · rw [gsc_structured uj ue d full hdf' hso] at h1 h2
          by_cases hg : MIN_ARTICLE_WORDS < wordCount full
          · rw [if_pos hg] at h2
            simp [okDict, pyDLookup] at h2
            subst h2
            omega
          · rw [if_neg hg] at h1 h2
            exact para_stage_min_words d c h1 h2
  · subst hod
    rw [gsc_structured uj ue d full hdf hso]
    rw [if_neg (by omega)]
  · have hp := (is_placeholder_iff (para_candidate d)).mpr hr
    have hcond : ¬(para_candidate d ≠ "" ∧
        is_placeholder_text (para_candidate d) = false) := by
      intro hc
      rw [hp] at hc
      exact absurd hc.2 (by simp)
    simp only [para_stage, if_neg hcond]

/-- Witness for C5 at concrete inputs: a 15-word paragraph scrape is
returned and meets the bound; an empty structured article (word count
3 ≤ 15) falls through to the paragraph stage; a 3-word paragraph
candidate is rejected with the final failure dict. -/
theorem c5_word_threshold_witness :
    MIN_ARTICLE_WORDS ≤ wordCount
      "alpha beta gamma delta epsilon zeta eta theta iota kappa lambda mu nu xi omicron" ∧
    CBC.get_story_content (fun s => s) (fun s => s)
        (some { docFails := false, nextData := some (some (Json.obj [])),
                paras := [] }) =
      para_stage { docFails := false, nextData := some (some (Json.obj [])),
                   paras := [] } ∧
    para_stage { docFails := false, nextData := none, paras := ["too few words"] } =
      extractFailDict := by
  refine ⟨?_, ?_, ?_⟩
  · exact (c5_word_threshold (fun s => s) (fun s => s)
      (some { docFails := false, nextData := none,
              paras := ["alpha beta gamma delta epsilon zeta eta theta iota kappa lambda mu nu xi omicron"] })).1
      "alpha beta gamma delta epsilon zeta eta theta iota kappa lambda mu nu xi omicron"
      rfl rfl
  · exact (c5_word_threshold (fun s => s) (fun s => s)
      (some { docFails := false, nextData := some (some (Json.obj [])),
              paras := [] })).2.1
      { docFails := false, nextData := some (some (Json.obj [])), paras := [] }
      "# No Title" rfl rfl rfl (by decide)
  · exact (c5_word_threshold (fun s => s) (fun s => s) none).2.2
      { docFails := false, nextData := none, paras := ["too few words"] }
      (Or.inr (Or.inl (by decide)))

/-- Claim C7 counterexample: on a failed fetch the code returns
`{"ok": False, "content": "Failed to fetch article."}` — there is no
`reason` key at all (the message rides in `content`, and its text also
differs from the claim's `"failed to fetch"`). -/
theorem c7_reason_field_cex :
    CBC.get_story_content (fun s => s) (fun s => s) none = fetchFailDict ∧
    pyDLookup (CBC.get_story_content (fun s => s) (fun s => s) none) "reason" =
      none ∧
    pyDLookup (CBC.get_story_content (fun s => s) (fun s => s) none) "content" =
      some (PyVal.vS "Failed to fetch article.") :=
  ⟨rfl, rfl, rfl⟩

/-- Claim C7 (amended): `get_story_content` returns exactly one of the
fully-populated dictionaries `{ok: True, content: extracted-text}`,
`{ok: False, content: "Failed to fetch article."}` (returned on a
failed fetch, without attempting extraction) or `{ok: False, content:
"Could not extract valid article content."}`; every result carries both
an `ok` and a `content` key (the failure message rides in `content`,
not in a `reason` field); the feed variant returns `{ok: True,
content: ...}` or `{ok: False, content: "No content found."}`. -/
theorem c7_result_shape (uj : UJ) (ue : String → String)
    (od : Option FetchedDoc) :
    ((∃ c, CBC.get_story_content uj ue od = okDict c) ∨
      CBC.get_story_content uj ue od = fetchFailDict ∨
      CBC.get_story_content uj ue od = extractFailDict) ∧
    (od = none → CBC.get_story_content uj ue od = fetchFailDict) ∧
    (pyDLookup (CBC.get_story_content uj ue od) "ok" ≠ none ∧
      pyDLookup (CBC.get_story_content uj ue od) "content" ≠ none) ∧
    (∀ (sh : String → String) (entries : List FeedEntry) (surl : String)
        (res : PyDict),
      RSS.get_story_content sh entries surl = Except.ok res →
      (∃ c, res = okDict c) ∨ res = noContentDict) := by
  have hshape : (∃ c, CBC.get_story_content uj ue od = okDict c) ∨
      CBC.get_story_content uj ue od = fetchFailDict ∨
      CBC.get_story_content uj ue od = extractFailDict := by
    rcases od with _ | d
    · right; left; rfl
    · by_cases hdf : d.docFails = true
      · right; right; simp [CBC.get_story_content, hdf]
      · have hdf' : d.docFails = false := by simpa using hdf
        rcases hso : CBC.structured_opt uj ue d with _ | full
        · rw [gsc_para uj ue d hdf' hso]
          rcases para_stage_shape d with ⟨hok, _⟩ | hfail
          · exact Or.inl ⟨para_candidate d, hok⟩
          · exact Or.inr (Or.inr hfail)
        · rw [gsc_structured uj ue d full hdf' hso]
          by_cases hg : MIN_ARTICLE_WORDS < wordCount full
          · rw [if_pos hg]; exact Or.inl ⟨full, rfl⟩
          · rw [if_neg hg]
            rcases para_stage_shape d with ⟨hok, _⟩ | hfail
            · exact Or.inl ⟨para_candidate d, hok⟩
            · exact Or.inr (Or.inr hfail)
  refine ⟨hshape, fun hod => by subst hod; rfl, ?_, ?_⟩
  · rcases hshape with ⟨c, hc⟩ | hc | hc <;> rw [hc] <;>
      simp [okDict, fetchFailDict, extractFailDict, pyDLookup]
  · intro sh entries surl res h
    induction entries with
    | nil =>
      right
      simp only [RSS.get_story_content, rss_content_go] at h
      exact (Except.ok.inj h).symm
    | cons e rest ih =>
      rcases hle : e.link with _ | l
      · simp only [RSS.get_story_content, rss_content_go, hle] at h
        cases h
      · simp only [RSS.get_story_content, rss_content_go, hle] at h ih
        by_cases hif : l = surl
        · rw [if_pos hif] at h
          rcases hc : e.content with _ | parts
          · rw [hc] at h
            rcases hs : e.summary with _ | s
            · rw [hs] at h
              exact ih h
            · rw [hs] at h
              exact Or.inl ⟨_, (Except.ok.inj h).symm⟩
          · rw [hc] at h
            exact Or.inl ⟨_, (Except.ok.inj h).symm⟩
        · rw [if_neg hif] at h
          exact ih h

/-- Witness for C7 at concrete inputs: the fetch-failure case via the
theorem, and the feed variant's no-match case. -/
theorem c7_result_shape_witness :
    CBC.get_story_content (fun s => s) (fun s => s) none = fetchFailDict ∧
    ((∃ c, noContentDict = okDict c) ∨ noContentDict = noContentDict) :=
  ⟨(c7_result_shape (fun s => s) (fun s => s) none).2.1 rfl,
    (c7_result_shape (fun s => s) (fun s => s) none).2.2.2
      (fun s => s) [] "u" noContentDict rfl⟩
